import Mathlib

/-!
# PolitiTrack transparency-score verification

A shallow embedding of the transparency-score calculator of the PolitiTrack
repository and of the frontend components that present its output, together
with theorems settling the claims of the specification about them.

The backend calculator (`_calculate_transparency_breakdown` in
`backend/app/api/politicians.py`) is not part of the available sources; the
definitions for it below are modelled from the specification (§3, §4.1, §7),
as marked in their doc comments.  The frontend components
(`TransparencyScore.tsx`, `VotingHistory.tsx`, `PoliticianCard.tsx`,
`PoliticianPage.tsx`, `README.md`) are embedded from the source files.

Scores are represented as rationals (ℚ): every value the scoring rules
produce is an exact rational, and the claims under study involve no
floating-point rounding behaviour.  Dates are represented as integer day
numbers; a missing disclosure date is `Option.none`.
-/

/-- Modelled from the spec (§3): a stock-trade record with a transaction date
and a (possibly missing) disclosure date, both as integer day numbers. -/
structure StockTradeRecord where
  transactionDate : Int
  disclosureDate : Option Int
deriving DecidableEq

/-- Modelled from the spec (§3): aggregated vote counts for a politician.
The four sub-counts are intended to sum to `totalVotes`. -/
structure VoteParticipationFacts where
  totalVotes : Nat
  yesVotes : Nat
  noVotes : Nat
  notVotingCount : Nat
  presentCount : Nat
deriving DecidableEq

/-- Modelled from the spec (§3): whether at least one FEC-cycle filing
exists for the politician. -/
structure CampaignFinanceFacts where
  hasFilings : Bool
deriving DecidableEq

/-- Modelled from the spec (§3): profile-level disclosure signals. -/
structure PoliticianProfileFacts where
  hasWebsite : Bool
  hasAnyDisclosureActivity : Bool
deriving DecidableEq

/-- Output value of the calculator; field names follow the API response type
`TransparencyBreakdown` in the frontend type declarations
(src/unnamed/part_001, lines 32–38). -/
structure TransparencyBreakdown where
  financial_disclosure : ℚ
  stock_disclosure : ℚ
  vote_participation : ℚ
  campaign_finance : ℚ
  total_score : ℚ
deriving DecidableEq

/-- Modelled from the spec (§7): a trade is usable when its disclosure date
is present and not earlier than its transaction date; its delay in days is
then `disclosureDate - transactionDate`.  Returns `none` for a malformed
(skipped) trade. -/
def usableDelay (t : StockTradeRecord) : Option Int :=
  match t.disclosureDate with
  | none => none
  | some d => if t.transactionDate ≤ d then some (d - t.transactionDate) else none

/-- Modelled from the spec (§7): the delays of the usable trades, malformed
trades skipped. -/
def usableDelays (ts : List StockTradeRecord) : List Int :=
  ts.filterMap usableDelay

/-- Modelled from the spec (§4.1): the threshold ladder for the stock
sub-score, evaluated in ascending order with inclusive upper bounds, first
match wins. -/
def stockDelayLadder (avgDelay : ℚ) : ℚ :=
  if avgDelay ≤ 30 then 30
  else if avgDelay ≤ 45 then 20
  else if avgDelay ≤ 60 then 10
  else 0

/-- Modelled from the spec (§4.1): the mean delay of a list of usable
delays. -/
def avgDelay (ds : List Int) : ℚ :=
  (ds.map (fun d => (d : ℚ))).sum / (ds.length : ℚ)

/-- Modelled from the spec (§4.1, §7): stock disclosure sub-score (max 30).
If no usable trade exists (empty list, or all trades malformed), the
neutral default of 15 applies; otherwise the ladder on the average delay. -/
def stockDisclosureScore (ts : List StockTradeRecord) : ℚ :=
  let ds := usableDelays ts
  if ds.isEmpty then 15 else stockDelayLadder (avgDelay ds)

/-- Modelled from the spec (§3 data-model wording, for comparison with §7):
the variant in which a negative delay is clamped to 0 instead of the trade
being skipped.  A trade with a missing disclosure date still contributes no
delay. -/
def stockDisclosureScoreClamping (ts : List StockTradeRecord) : ℚ :=
  let ds := ts.filterMap (fun t =>
    t.disclosureDate.map (fun d => max 0 (d - t.transactionDate)))
  if ds.isEmpty then 15 else stockDelayLadder (avgDelay ds)

/-- Modelled from the spec (§4.1): vote participation sub-score (max 30).
`totalVotes = 0` yields the neutral default 15; otherwise
`participationRate * 30` clamped to `[0, 30]`, where only yes/no votes
count toward the numerator. -/
def voteParticipationScore (v : VoteParticipationFacts) : ℚ :=
  if v.totalVotes = 0 then 15
  else
    let rate : ℚ := ((v.yesVotes : ℚ) + (v.noVotes : ℚ)) / (v.totalVotes : ℚ)
    min 30 (max 0 (rate * 30))

/-- Modelled from the spec (§4.1): campaign finance sub-score (max 20):
20 when filings exist, 10 otherwise. -/
def campaignFinanceScore (f : CampaignFinanceFacts) : ℚ :=
  if f.hasFilings then 20 else 10

/-- Modelled from the spec (§4.1): financial/general disclosure sub-score
(max 20): +5 for a website, +10 for any disclosure activity, +5 base,
capped at 20. -/
def financialDisclosureScore (p : PoliticianProfileFacts) : ℚ :=
  min 20 ((if p.hasWebsite then 5 else 0)
    + (if p.hasAnyDisclosureActivity then 10 else 0) + 5)

/-- Modelled from the spec (§4.1): the calculator.  Four independent
sub-scores; the total is their exact sum, with no further clamping. -/
def calculate (ts : List StockTradeRecord) (v : VoteParticipationFacts)
    (f : CampaignFinanceFacts) (p : PoliticianProfileFacts) :
    TransparencyBreakdown :=
  let stock := stockDisclosureScore ts
  let vote := voteParticipationScore v
  let fin := campaignFinanceScore f
  let disc := financialDisclosureScore p
  { financial_disclosure := disc
    stock_disclosure := stock
    vote_participation := vote
    campaign_finance := fin
    total_score := stock + vote + fin + disc }

/-! ## Frontend embeddings (from the source files under src/) -/

/-- The four named components of the breakdown. -/
inductive ScoreComponent where
  | stockDisclosure
  | voteParticipation
  | campaignFinance
  | financialDisclosure
deriving DecidableEq

/-- Embedded from `frontend/src/components/Dashboard/TransparencyScore.tsx`
(lines 84–107): the `maxScore` each `ScoreBar` receives. -/
def transparencyScoreMaxScore : ScoreComponent → ℕ
  | .stockDisclosure => 30
  | .voteParticipation => 30
  | .campaignFinance => 20
  | .financialDisclosure => 20

/-- Embedded from the `TransparencyScore` component found in the
`VotingHistory.tsx` source file (lines 151–173 of
`frontend/src/components/Dashboard/VotingHistory.tsx`): the `maxScore`
each of its `ScoreBar`s receives. -/
def votingHistoryMaxScore : ScoreComponent → ℕ
  | .financialDisclosure => 30
  | .stockDisclosure => 30
  | .voteParticipation => 20
  | .campaignFinance => 20

/-- Embedded from `README.md` (lines 121–130): the points column of the
Transparency Score table. -/
def readmeComponentPoints : ScoreComponent → ℕ
  | .financialDisclosure => 30
  | .stockDisclosure => 30
  | .voteParticipation => 20
  | .campaignFinance => 20

/-- JavaScript truthiness of a `number | null` value (`null` and `0` are
falsy), as used by conditional expressions in the frontend. -/
def numTruthy : Option ℚ → Bool
  | none => false
  | some v => v != 0

/-- Embedded from `PoliticianPage` (src/unnamed/part_004, line 160): the
`score` prop passed to `TransparencyScore`, namely
`politician.transparency_score ? Number(politician.transparency_score) : null`. -/
def politicianPageScoreProp (ts : Option ℚ) : Option ℚ :=
  if numTruthy ts then ts else none

/-- Embedded from `PoliticianCardComponent` (src/unnamed/part_007, line 15):
`const score = politician.transparency_score ? Number(...) : null`. -/
def politicianCardScore (ts : Option ℚ) : Option ℚ :=
  if numTruthy ts then ts else none

/-- The three colour bands of the score display. -/
inductive ScoreBand where
  | high
  | medium
  | low
deriving DecidableEq

/-- Embedded from `TransparencyScore.tsx` (lines 65–71): the band of a
non-null score (`>= 70` high, `>= 40` medium, otherwise low). -/
def scoreBand (s : ℚ) : ScoreBand :=
  if 70 ≤ s then .high else if 40 ≤ s then .medium else .low

/-- What the `TransparencyScore` component renders for its `score` prop. -/
inductive TransparencyView where
  | noData
  | shown (score : ℚ) (band : ScoreBand)
deriving DecidableEq

/-- Embedded from `TransparencyScore.tsx` (lines 56–82): a `null` score
renders the "No transparency data available" card; otherwise the score is
shown with its band styling. -/
def transparencyScoreRender (score : Option ℚ) : TransparencyView :=
  match score with
  | none => .noData
  | some s => .shown s (scoreBand s)

/-- What a politician-card component renders in its score corner. -/
inductive CardScoreView where
  | noScore
  | shown (score : ℚ) (band : Option ScoreBand)
deriving DecidableEq

/-- Embedded from `PoliticianCardComponent` (src/unnamed/part_007,
lines 17–21): the `transparency-score-*` class, each condition guarded by
the truthiness of `score` (`score && score >= 70`, etc.). -/
def politicianCardBand (score : Option ℚ) : Option ScoreBand :=
  match score with
  | none => none
  | some s =>
    if s ≠ 0 ∧ 70 ≤ s then some .high
    else if s ≠ 0 ∧ 40 ≤ s ∧ s < 70 then some .medium
    else if s ≠ 0 ∧ s < 40 then some .low
    else none

/-- Embedded from `PoliticianCardComponent` (src/unnamed/part_007,
lines 54–64): `score !== null` shows the score with its band classes,
otherwise the "No score" text. -/
def politicianCardRender (ts : Option ℚ) : CardScoreView :=
  match politicianCardScore ts with
  | none => .noScore
  | some s => .shown s (politicianCardBand (some s))

/-- Embedded from `frontend/src/components/Politicians/PoliticianCard.tsx`
(lines 23–27): the `transparency-score-*` class of the other card variant,
computed directly from `politician.transparency_score` with the same
truthiness guards. -/
def legacyCardBand (ts : Option ℚ) : Option ScoreBand :=
  match ts with
  | none => none
  | some s =>
    if s ≠ 0 ∧ 70 ≤ s then some .high
    else if s ≠ 0 ∧ 40 ≤ s ∧ s < 70 then some .medium
    else if s ≠ 0 ∧ s < 40 then some .low
    else none

/-- Embedded from `TradeRow` in the `StockTrades` component
(src/unnamed/part_005, lines 161–165): the colour class of the per-trade
disclosure delay (`<= 30` green, `<= 45` yellow, `> 45` red). -/
def tradeRowDelayBand (delayDays : Int) : ScoreBand :=
  if delayDays ≤ 30 then .high
  else if delayDays ≤ 45 then .medium
  else .low

/-! ## Helper lemmas -/

/-- The stock disclosure sub-score always lies in `[0, 30]`. -/
theorem stockDisclosureScore_bounds (ts : List StockTradeRecord) :
    0 ≤ stockDisclosureScore ts ∧ stockDisclosureScore ts ≤ 30 := by
  unfold stockDisclosureScore stockDelayLadder
  dsimp only
  split_ifs <;> norm_num

/-- The vote participation sub-score always lies in `[0, 30]`. -/
theorem voteParticipationScore_bounds (v : VoteParticipationFacts) :
    0 ≤ voteParticipationScore v ∧ voteParticipationScore v ≤ 30 := by
  unfold voteParticipationScore
  dsimp only
  split_ifs
  · norm_num
  · exact ⟨le_min (by norm_num) (le_max_left 0 _), min_le_left _ _⟩

/-- The campaign finance sub-score always lies in `[0, 20]`. -/
theorem campaignFinanceScore_bounds (f : CampaignFinanceFacts) :
    0 ≤ campaignFinanceScore f ∧ campaignFinanceScore f ≤ 20 := by
  unfold campaignFinanceScore
  split_ifs <;> norm_num

/-- The financial/general disclosure sub-score always lies in `[0, 20]`. -/
theorem financialDisclosureScore_bounds (p : PoliticianProfileFacts) :
    0 ≤ financialDisclosureScore p ∧ financialDisclosureScore p ≤ 20 := by
  unfold financialDisclosureScore
  rcases p with ⟨w, a⟩
  cases w <;> cases a <;> norm_num

/-! ## Claim theorems -/

/-- Claim C1: for every input, the breakdown returned by `calculate` has
`total_score` exactly equal to the sum of the four sub-scores (no further
clamping applied to the total), and `0 ≤ total_score ≤ 100`. -/
theorem c1_total_is_exact_sum_and_bounded :
    ∀ (ts : List StockTradeRecord) (v : VoteParticipationFacts)
      (f : CampaignFinanceFacts) (p : PoliticianProfileFacts),
      (calculate ts v f p).total_score
        = (calculate ts v f p).stock_disclosure
          + (calculate ts v f p).vote_participation
          + (calculate ts v f p).campaign_finance
          + (calculate ts v f p).financial_disclosure
      ∧ 0 ≤ (calculate ts v f p).total_score
      ∧ (calculate ts v f p).total_score ≤ 100 := by
  intro ts v f p
  obtain ⟨h1, h2⟩ := stockDisclosureScore_bounds ts
  obtain ⟨h3, h4⟩ := voteParticipationScore_bounds v
  obtain ⟨h5, h6⟩ := campaignFinanceScore_bounds f
  obtain ⟨h7, h8⟩ := financialDisclosureScore_bounds p
  refine ⟨rfl, ?_, ?_⟩ <;> simp only [calculate] <;> linarith

/-- Claim C2 counterexample: the claim that every bar-rendering layer uses
the maxima 30/30/20/20 (stock/vote/finance/financial) is false — the
`TransparencyScore` variant in the `VotingHistory.tsx` source file renders
the vote participation bar against a maximum of 20, while
`TransparencyScore.tsx` uses 30. -/
theorem c2_layers_disagree_on_maxima :
    votingHistoryMaxScore ScoreComponent.voteParticipation = 20
    ∧ transparencyScoreMaxScore ScoreComponent.voteParticipation = 30
    ∧ votingHistoryMaxScore ScoreComponent.voteParticipation
        ≠ transparencyScoreMaxScore ScoreComponent.voteParticipation := by
  refine ⟨rfl, rfl, ?_⟩
  decide

/-- Claim C2 (amended): `TransparencyScore.tsx` renders the four named
components with maxima 30 (stock), 30 (vote), 20 (finance), 20
(financial), and every sub-score computed by `calculate` is within these
maxima; however, the `TransparencyScore` variant in the `VotingHistory.tsx`
source file — matching the README table — instead uses maxima 30
(financial), 30 (stock), 20 (vote), 20 (campaign), so the rendering layers
do not all share the same per-component maxima. -/
theorem c2_component_maxima :
    (transparencyScoreMaxScore ScoreComponent.stockDisclosure = 30
      ∧ transparencyScoreMaxScore ScoreComponent.voteParticipation = 30
      ∧ transparencyScoreMaxScore ScoreComponent.campaignFinance = 20
      ∧ transparencyScoreMaxScore ScoreComponent.financialDisclosure = 20)
    ∧ (votingHistoryMaxScore ScoreComponent.financialDisclosure = 30
      ∧ votingHistoryMaxScore ScoreComponent.stockDisclosure = 30
      ∧ votingHistoryMaxScore ScoreComponent.voteParticipation = 20
      ∧ votingHistoryMaxScore ScoreComponent.campaignFinance = 20)
    ∧ (∀ c : ScoreComponent, readmeComponentPoints c = votingHistoryMaxScore c)
    ∧ ∀ (ts : List StockTradeRecord) (v : VoteParticipationFacts)
        (f : CampaignFinanceFacts) (p : PoliticianProfileFacts),
        (calculate ts v f p).stock_disclosure
            ≤ (transparencyScoreMaxScore ScoreComponent.stockDisclosure : ℚ)
        ∧ (calculate ts v f p).vote_participation
            ≤ (transparencyScoreMaxScore ScoreComponent.voteParticipation : ℚ)
        ∧ (calculate ts v f p).campaign_finance
            ≤ (transparencyScoreMaxScore ScoreComponent.campaignFinance : ℚ)
        ∧ (calculate ts v f p).financial_disclosure
            ≤ (transparencyScoreMaxScore ScoreComponent.financialDisclosure : ℚ) := by
  refine ⟨⟨rfl, rfl, rfl, rfl⟩, ⟨rfl, rfl, rfl, rfl⟩, fun c => by cases c <;> rfl,
    fun ts v f p => ?_⟩
  have h1 := (stockDisclosureScore_bounds ts).2
  have h2 := (voteParticipationScore_bounds v).2
  have h3 := (campaignFinanceScore_bounds f).2
  have h4 := (financialDisclosureScore_bounds p).2
  simp only [calculate, transparencyScoreMaxScore]
  norm_num
  exact ⟨h1, h2, h3, h4⟩

/-- Claim C3: for every trade list with at least one usable trade, the stock
disclosure sub-score is the ascending, inclusive-upper-bound ladder applied
to the mean delay of the usable trades; in particular an average delay of
exactly 30, 45, 60 days yields 30, 20, 10 points, and 31, 46, 61 days
yields 20, 10, 0 points. -/
theorem c3_stock_ladder (ts : List StockTradeRecord)
    (h : usableDelays ts ≠ []) :
    stockDisclosureScore ts = stockDelayLadder (avgDelay (usableDelays ts))
    ∧ (avgDelay (usableDelays ts) = 30 → stockDisclosureScore ts = 30)
    ∧ (avgDelay (usableDelays ts) = 45 → stockDisclosureScore ts = 20)
    ∧ (avgDelay (usableDelays ts) = 60 → stockDisclosureScore ts = 10)
    ∧ (avgDelay (usableDelays ts) = 31 → stockDisclosureScore ts = 20)
    ∧ (avgDelay (usableDelays ts) = 46 → stockDisclosureScore ts = 10)
    ∧ (avgDelay (usableDelays ts) = 61 → stockDisclosureScore ts = 0) := by
  have hmain : stockDisclosureScore ts = stockDelayLadder (avgDelay (usableDelays ts)) := by
    unfold stockDisclosureScore
    dsimp only
    rw [if_neg]
    simp [List.isEmpty_iff, h]
  refine ⟨hmain, ?_, ?_, ?_, ?_, ?_, ?_⟩ <;>
    · intro heq
      rw [hmain, heq]
      norm_num [stockDelayLadder]

/-- Claim C3 witness: the ladder facts instantiated on a concrete
single-trade list whose only delay is 30 days. -/
theorem c3_stock_ladder_witness :
    stockDisclosureScore [⟨0, some 30⟩]
      = stockDelayLadder (avgDelay (usableDelays [⟨0, some 30⟩])) :=
  (c3_stock_ladder [⟨0, some 30⟩] (by decide)).1

/-- Claim C4: the neutral defaults — an empty trade list gives a stock
sub-score of exactly 15; `totalVotes = 0` gives a vote sub-score of exactly
15; `hasFilings = false` gives a finance sub-score of exactly 10, and
`hasFilings = true` gives 20. -/
theorem c4_neutral_defaults :
    stockDisclosureScore [] = 15
    ∧ (∀ v : VoteParticipationFacts, v.totalVotes = 0 →
        voteParticipationScore v = 15)
    ∧ (∀ f : CampaignFinanceFacts, f.hasFilings = false →
        campaignFinanceScore f = 10)
    ∧ (∀ f : CampaignFinanceFacts, f.hasFilings = true →
        campaignFinanceScore f = 20) := by
  refine ⟨by decide, fun v hv => ?_, fun f hf => ?_, fun f hf => ?_⟩
  · simp [voteParticipationScore, hv]
  · simp [campaignFinanceScore, hf]
  · simp [campaignFinanceScore, hf]

/-- Claim C4 witness: the defaults instantiated at concrete inputs. -/
theorem c4_neutral_defaults_witness :
    voteParticipationScore ⟨0, 0, 0, 0, 0⟩ = 15
    ∧ campaignFinanceScore ⟨false⟩ = 10
    ∧ campaignFinanceScore ⟨true⟩ = 20 :=
  ⟨c4_neutral_defaults.2.1 ⟨0, 0, 0, 0, 0⟩ rfl,
   c4_neutral_defaults.2.2.1 ⟨false⟩ rfl,
   c4_neutral_defaults.2.2.2 ⟨true⟩ rfl⟩

/-- Claim C5: for `totalVotes > 0` the vote participation sub-score equals
`participationRate * 30` clamped to `[0, 30]`, where the participation
rate is `(yesVotes + noVotes) / totalVotes`; the score depends only on the
yes count, the no count and the total (not-voting and present counts are
excluded from the numerator), and it lies in `[0, 30]`. -/
theorem c5_vote_participation (v : VoteParticipationFacts)
    (h : 0 < v.totalVotes) :
    voteParticipationScore v
      = min 30 (max 0
          (((v.yesVotes : ℚ) + (v.noVotes : ℚ)) / (v.totalVotes : ℚ) * 30))
    ∧ (∀ v' : VoteParticipationFacts, v'.totalVotes = v.totalVotes →
        v'.yesVotes = v.yesVotes → v'.noVotes = v.noVotes →
        voteParticipationScore v' = voteParticipationScore v)
    ∧ 0 ≤ voteParticipationScore v ∧ voteParticipationScore v ≤ 30 := by
  refine ⟨?_, ?_, voteParticipationScore_bounds v⟩
  · unfold voteParticipationScore
    rw [if_neg h.ne']
  · intro v' ht hy hn
    unfold voteParticipationScore
    rw [ht, hy, hn]

/-- Claim C5 witness: the clamp formula instantiated on the concrete vote
record with 100 total votes, 40 yes, 40 no, 15 not voting, 5 present. -/
theorem c5_vote_participation_witness :
    voteParticipationScore ⟨100, 40, 40, 15, 5⟩
      = min 30 (max 0 (((40 : ℚ) + (40 : ℚ)) / (100 : ℚ) * 30)) := by
  have := (c5_vote_participation ⟨100, 40, 40, 15, 5⟩ (by norm_num)).1
  norm_num at this ⊢
  exact this

/-- Claim C6 counterexample: the claim that exactly one true signal gives
15 is false — with `hasWebsite = true` and
`hasAnyDisclosureActivity = false` the disclosure sub-score is
5 + 5 = 10, not 15. -/
theorem c6_website_only_gives_ten :
    financialDisclosureScore ⟨true, false⟩ = 10
    ∧ financialDisclosureScore ⟨true, false⟩ ≠ 15 := by
  constructor <;> norm_num [financialDisclosureScore]

/-- Claim C6 (amended): the disclosure sub-score is the sum of the
independent signals (`hasWebsite` contributes 5,
`hasAnyDisclosureActivity` contributes 10) plus an unconditional base of
5, capped at 20, so it always lies in {0, 5, 10, 15, 20}; both signals
false give 5, `hasWebsite` only gives 10, `hasAnyDisclosureActivity`
only gives 15, and both true give 20. -/
theorem c6_disclosure_additivity :
    financialDisclosureScore ⟨false, false⟩ = 5
    ∧ financialDisclosureScore ⟨true, false⟩ = 10
    ∧ financialDisclosureScore ⟨false, true⟩ = 15
    ∧ financialDisclosureScore ⟨true, true⟩ = 20
    ∧ ∀ p : PoliticianProfileFacts,
        financialDisclosureScore p = 0 ∨ financialDisclosureScore p = 5
        ∨ financialDisclosureScore p = 10 ∨ financialDisclosureScore p = 15
        ∨ financialDisclosureScore p = 20 := by
  refine ⟨by norm_num [financialDisclosureScore],
    by norm_num [financialDisclosureScore],
    by norm_num [financialDisclosureScore],
    by norm_num [financialDisclosureScore], fun p => ?_⟩
  rcases p with ⟨w, a⟩
  cases w <;> cases a <;> norm_num [financialDisclosureScore]

/-- Claim C7: end-to-end scenario A — trades with delays 10 and 20 days,
100 total votes (40 yes, 40 no, 15 not voting, 5 present), filings present,
website present, disclosure activity present — yields stock 30, vote 24,
finance 20, disclosure 20, total exactly 94. -/
theorem c7_scenario_a :
    calculate [⟨0, some 10⟩, ⟨0, some 20⟩] ⟨100, 40, 40, 15, 5⟩
        ⟨true⟩ ⟨true, true⟩
      = { financial_disclosure := 20
          stock_disclosure := 30
          vote_participation := 24
          campaign_finance := 20
          total_score := 94 } := by
  norm_num [calculate, stockDisclosureScore, voteParticipationScore,
    campaignFinanceScore, financialDisclosureScore, usableDelays, usableDelay,
    avgDelay, stockDelayLadder, List.filterMap_cons]

/-- Claim C8: a trade whose disclosure date is missing or earlier than its
transaction date is skipped from the average-delay computation (the
remaining trades still determine the stock sub-score); if every trade of a
non-empty list is unusable the stock sub-score falls back to the neutral
default 15; and the clamp-negative-delays-to-0 policy stated in the data
model genuinely disagrees with the skip policy on such an input, as both
policies are evaluated on the single trade with transaction day 10 and
disclosure day 0. -/
theorem c8_malformed_trade_skipped (ts₁ ts₂ : List StockTradeRecord)
    (t : StockTradeRecord) (hbad : usableDelay t = none) :
    stockDisclosureScore (ts₁ ++ t :: ts₂) = stockDisclosureScore (ts₁ ++ ts₂)
    ∧ (∀ ts : List StockTradeRecord, ts ≠ [] → usableDelays ts = [] →
        stockDisclosureScore ts = 15)
    ∧ stockDisclosureScore [⟨10, some 0⟩] = 15
    ∧ stockDisclosureScoreClamping [⟨10, some 0⟩] = 30
    ∧ stockDisclosureScore [⟨10, some 0⟩]
        ≠ stockDisclosureScoreClamping [⟨10, some 0⟩] := by
  refine ⟨?_, fun ts _ hu => ?_, ?_, ?_, ?_⟩
  · simp only [stockDisclosureScore, usableDelays, List.filterMap_append,
      List.filterMap_cons, hbad]
  · simp [stockDisclosureScore, hu]
  · norm_num [stockDisclosureScore, usableDelays, usableDelay,
      List.filterMap_cons]
  · norm_num [stockDisclosureScoreClamping, avgDelay, stockDelayLadder,
      List.filterMap_cons]
  · norm_num [stockDisclosureScore, stockDisclosureScoreClamping, avgDelay,
      stockDelayLadder, usableDelays, usableDelay, List.filterMap_cons]

/-- Claim C8 witness: skipping instantiated on a concrete list — inserting
the malformed trade (transaction day 10, disclosure day 0) in front of a
good trade leaves the stock sub-score unchanged. -/
theorem c8_malformed_trade_skipped_witness :
    stockDisclosureScore ([] ++ (⟨10, some 0⟩ : StockTradeRecord)
        :: [⟨0, some 20⟩])
      = stockDisclosureScore ([] ++ [⟨0, some 20⟩]) :=
  (c8_malformed_trade_skipped [] [⟨0, some 20⟩] ⟨10, some 0⟩ (by decide)).1

/-- Claim C9: the calculator is a total function returning a complete
breakdown whose total is the sum of the four sub-scores; the vote, finance
and disclosure sub-scores do not depend on the trade list at all (so a
malformed trade cannot change them), and when every trade is unusable the
stock sub-score degrades to its neutral default 15 rather than failing. -/
theorem c9_partial_failure_isolation (ts ts' : List StockTradeRecord)
    (v : VoteParticipationFacts) (f : CampaignFinanceFacts)
    (p : PoliticianProfileFacts) (hu : usableDelays ts = []) :
    (calculate ts v f p).vote_participation
        = (calculate ts' v f p).vote_participation
    ∧ (calculate ts v f p).campaign_finance
        = (calculate ts' v f p).campaign_finance
    ∧ (calculate ts v f p).financial_disclosure
        = (calculate ts' v f p).financial_disclosure
    ∧ (calculate ts v f p).total_score
        = (calculate ts v f p).stock_disclosure
          + (calculate ts v f p).vote_participation
          + (calculate ts v f p).campaign_finance
          + (calculate ts v f p).financial_disclosure
    ∧ (calculate ts v f p).stock_disclosure = 15 := by
  refine ⟨rfl, rfl, rfl, rfl, ?_⟩
  simp [calculate, stockDisclosureScore, hu]

/-- Claim C9 witness: isolation instantiated at a concrete input whose only
trade is malformed — the other three sub-scores agree with those of the
empty trade list and the stock sub-score is the neutral 15. -/
theorem c9_partial_failure_isolation_witness :
    (calculate [⟨10, some 0⟩] ⟨100, 40, 40, 15, 5⟩ ⟨true⟩ ⟨true, true⟩).vote_participation
        = (calculate [] ⟨100, 40, 40, 15, 5⟩ ⟨true⟩ ⟨true, true⟩).vote_participation
    ∧ (calculate [⟨10, some 0⟩] ⟨100, 40, 40, 15, 5⟩ ⟨true⟩ ⟨true, true⟩).stock_disclosure = 15 := by
  have h := c9_partial_failure_isolation [⟨10, some 0⟩] []
    ⟨100, 40, 40, 15, 5⟩ ⟨true⟩ ⟨true, true⟩ (by decide)
  exact ⟨h.1, h.2.2.2.2⟩

/-- Claim C10: for a politician whose transparency score is exactly 0, the
politician page maps the score to null through the JavaScript truthiness
check, so the `TransparencyScore` component renders the no-data card; the
politician card component likewise renders "No score"; and the other card
variant applies no score-band styling class. -/
theorem c10_zero_score_hidden :
    politicianPageScoreProp (some 0) = none
    ∧ transparencyScoreRender (politicianPageScoreProp (some 0))
        = TransparencyView.noData
    ∧ politicianCardScore (some 0) = none
    ∧ politicianCardRender (some 0) = CardScoreView.noScore
    ∧ legacyCardBand (some 0) = none := by
  refine ⟨rfl, rfl, rfl, rfl, ?_⟩
  simp [legacyCardBand]
